import Mathlib

/-!
Verification development for the ar-io-mcp server (TypeScript), a Model
Context Protocol server exposing AR.IO gateway functionality.  The
definitions below are a shallow embedding of the handler logic found in
`src/index.ts` and the sibling variants: JavaScript strings become Lean
`String`s, JavaScript numbers become `Int` (with `Option Int` standing for
a possibly-NaN `parseInt` result), HTTP traffic is modelled by explicit
response values handed to each handler, and each handler is a total Lean
function returning the payload it would produce together with the requests
it issued.
-/

/-! ## JavaScript primitives used by the handlers -/

/-- Helper for substring search: does `pat` occur contiguously in `s`?
Checks a prefix match at every suffix. -/
def containsSub : List Char → List Char → Bool
  | s, pat =>
    if pat.isPrefixOf s then true else
    match s with
    | [] => false
    | _ :: t => containsSub t pat

/-- Model of JavaScript `String.prototype.includes`: `s` contains `pat` as a
contiguous substring. -/
def jsIncludes (s pat : String) : Bool :=
  containsSub s.toList pat.toList

/-- Model of JavaScript `String.prototype.trim`: remove whitespace from both
ends. -/
def jsTrim (s : String) : String :=
  String.mk (((s.toList.dropWhile (fun c => c.isWhitespace)).reverse.dropWhile
    (fun c => c.isWhitespace)).reverse)

/-- Model of JavaScript `String.prototype.toLowerCase` on the ASCII range. -/
def jsToLower (s : String) : String :=
  String.mk (s.toList.map Char.toLower)

/-- Model of JavaScript `parseInt(s, 10)`: skip leading whitespace, accept an
optional sign, then read leading decimal digits; `none` models `NaN` (no
digits found).  Trailing garbage is ignored, as in JS. -/
def jsParseInt (s : String) : Option Int :=
  let cs := s.toList.dropWhile (fun c => c.isWhitespace)
  let signAndRest : Int × List Char :=
    match cs with
    | '-' :: rest => (-1, rest)
    | '+' :: rest => (1, rest)
    | _ => (1, cs)
  let digits := signAndRest.2.takeWhile (fun c => c.isDigit)
  if digits.isEmpty then none
  else some (signAndRest.1 * (digits.foldl (fun acc c => acc * 10 + (c.toNat - '0'.toNat)) 0 : Nat))

/-- Rendering of a JS number that may be NaN inside a template string:
`NaN` prints as "NaN", otherwise the decimal representation. -/
def jsNumToString : Option Int → String
  | some n => toString n
  | none => "NaN"

/-! ## HTTP model -/

/-- An upstream HTTP response as observed by a handler through `node-fetch`:
status code, status text, headers and body text. -/
structure HttpResponse where
  status : Nat
  statusText : String
  headers : List (String × String)
  body : String
deriving DecidableEq

/-- `response.ok` in fetch: status in the 2xx range. -/
def HttpResponse.ok (r : HttpResponse) : Bool :=
  200 ≤ r.status && r.status < 300

/-- `headers.get(name)` (exact-name lookup over the header list). -/
def getHeader (hs : List (String × String)) (name : String) : Option String :=
  (hs.find? (fun p => p.1 == name)).map (fun p => p.2)

/-- The responses the network would return for the (at most) two requests a
transaction handler can make: the HEAD probe and the follow-up GET. -/
structure Network where
  headResponse : HttpResponse
  getResponse : HttpResponse

/-- A request issued by a handler. -/
inductive Request where
  | head (url : String)
  | get (url : String)
  | post (url : String)
deriving DecidableEq

/-- What a tool handler produced: the requests it issued (in order) and the
text payload it returned.  Handlers catch every exception and return text, so
the embedding is a total function into this type. -/
structure HandlerResult where
  requests : List Request
  text : String
deriving DecidableEq

/-- What a resource handler produced: requests issued, the echoed URI and the
text payload. -/
structure ResourceResult where
  requests : List Request
  uri : String
  text : String
deriving DecidableEq

/-! ## query-parquet and the parquet resource (part_000 lines 1209-1403) -/

/-- The query actually passed to `conn.all` by `query-parquet` and the
`parquet://` resource: the input is trimmed, and ` LIMIT {limit}` is appended
unless the trimmed text already contains `"limit "` case-insensitively
(source: `let queryWithLimit = query.trim(); if
(!queryWithLimit.toLowerCase().includes("limit ")) queryWithLimit +=
` LIMIT ${limit}`). -/
def queryWithLimit (query : String) (limit : Int) : String :=
  let q := jsTrim query
  if jsIncludes (jsToLower q) "limit " then q else q ++ " LIMIT " ++ toString limit

/-- The executed query of the `query-parquet` tool given the optional `limit`
argument, whose default is 100 (`{ query, limit = 100 }`). -/
def queryParquetExecuted (query : String) (limit : Option Int) : String :=
  queryWithLimit query (limit.getD 100)

/-! ## DuckDB connection lifecycle of the parquet handlers -/

/-- The six awaited DuckDB operations performed by `query-parquet` (the
`get-parquet-schema` tool and the `parquet://` resource follow the same
open-use-close shape). -/
inductive DbEvent where
  | createDb
  | connectDb
  | execCreateView
  | runQuery
  | closeConn
  | closeDb
deriving DecidableEq

/-- Trace semantics of the `query-parquet` handler body: `fail e = true`
means the awaited operation `e` throws when reached.  The first component is
the list of operations that completed, in program order; the second is `true`
exactly on the success return.  The source wraps the whole body in
`try ... catch` with no `finally`, so a throw jumps straight to the catch
block, which returns the error text without running the remaining
statements. -/
def queryParquetTrace (fail : DbEvent → Bool) : List DbEvent × Bool :=
  if fail .createDb then ([], false) else
  if fail .connectDb then ([.createDb], false) else
  if fail .execCreateView then ([.createDb, .connectDb], false) else
  if fail .runQuery then ([.createDb, .connectDb, .execCreateView], false) else
  if fail .closeConn then ([.createDb, .connectDb, .execCreateView, .runQuery], false) else
  if fail .closeDb then
    ([.createDb, .connectDb, .execCreateView, .runQuery, .closeConn], false)
  else
    ([.createDb, .connectDb, .execCreateView, .runQuery, .closeConn, .closeDb], true)

/-! ## fetch-raw-transaction (size-checking variant, index.ts lines 35-123) -/

/-- The zod input schema of `fetch-raw-transaction`:
`z.string().regex(/^[a-zA-Z0-9_-]{43}$/)`. -/
def txIdValid (txId : String) : Bool :=
  txId.toList.length == 43 &&
    txId.toList.all (fun c => c.isAlpha || c.isDigit || c == '_' || c == '-')

/-- The `contentType.includes(...)` test selecting the text decoding branch. -/
def isTextualContentType (ct : String) : Bool :=
  jsIncludes ct "text/" || jsIncludes ct "application/json" ||
    jsIncludes ct "application/xml" || jsIncludes ct "application/javascript"

/-- Whether the parsed `Content-Length` takes the oversize branch:
`contentLength > 8192` is false when `parseInt` produced NaN. -/
def oversize8k (contentLength : Option Int) : Bool :=
  match contentLength with
  | some n => 8192 < n
  | none => false

/-- The `fetch-raw-transaction` handler body (size-checking variant).  The
`base64` parameter models `Buffer.from(buffer).toString("base64")`, an
external builtin.  The handler issues a HEAD request, rejects non-2xx
responses and declared lengths over 8192, then issues the GET and decodes the
body by content type.  All failure returns happen inside the single
`try`, so the function is total. -/
def fetchRawTransaction (gatewayUrl txId : String) (net : Network)
    (base64 : String → String) : HandlerResult :=
  let url := gatewayUrl ++ "/raw/" ++ txId
  let headResponse := net.headResponse
  if !headResponse.ok then
    { requests := [.head url],
      text := "Error fetching transaction: " ++ toString headResponse.status ++ " " ++
        headResponse.statusText }
  else
    let contentLength := jsParseInt ((getHeader headResponse.headers "Content-Length").getD "0")
    if oversize8k contentLength then
      { requests := [.head url],
        text := "Error: Transaction data is too large (" ++ jsNumToString contentLength ++
          " bytes, limit is 8KB)" }
    else
      let response := net.getResponse
      if !response.ok then
        { requests := [.head url, .get url],
          text := "Error fetching transaction: " ++ toString response.status ++ " " ++
            response.statusText }
      else
        let contentType := (getHeader response.headers "Content-Type").getD ""
        let data :=
          if isTextualContentType contentType then response.body
          else "[Binary data encoded as base64]: " ++ base64 response.body
        { requests := [.head url, .get url],
          text := "Transaction data (" ++ jsNumToString contentLength ++ " bytes, " ++
            contentType ++ "): " ++ data }

/-- Outcome of a tool call as seen through the protocol layer: either the
declared zod input schema rejected the arguments (no handler code runs), or
the handler ran and produced a result. -/
inductive ToolOutcome where
  | invalid (msg : String)
  | reply (r : HandlerResult)
deriving DecidableEq

/-- Requests issued by a tool call: none when validation rejected the input. -/
def ToolOutcome.requestsMade : ToolOutcome → List Request
  | .invalid _ => []
  | .reply r => r.requests

/-- The `fetch-raw-transaction` tool including its zod input gate: the regex
message is "Invalid transaction ID format"; on a match failure the handler is
never invoked, so no request is issued. -/
def fetchRawTransactionTool (gatewayUrl txId : String) (net : Network)
    (base64 : String → String) : ToolOutcome :=
  if txIdValid txId then .reply (fetchRawTransaction gatewayUrl txId net base64)
  else .invalid "Invalid transaction ID format"

/-- The `transaction://{txId}` resource (index.ts lines 226-323): same body
as the tool, preceded by the `if (!txId)` guard (absent or empty template
variable). -/
def transactionResource (gatewayUrl uriHref : String) (txId : Option String)
    (net : Network) (base64 : String → String) : ResourceResult :=
  match txId with
  | none => { requests := [], uri := uriHref, text := "Error: Missing transaction ID" }
  | some t =>
    if t = "" then
      { requests := [], uri := uriHref, text := "Error: Missing transaction ID" }
    else
      let r := fetchRawTransaction gatewayUrl t net base64
      { requests := r.requests, uri := uriHref, text := r.text }

/-! ## Gateway info, GraphQL and their resources (part_000 lines 143-291,
532-736) -/

/-- The `get-gateway-info` tool.  The `pretty` parameter models
`JSON.parse` followed by `JSON.stringify(info, null, 2)` applied to the
response body (external builtins). -/
def getGatewayInfo (gatewayUrl : String) (resp : HttpResponse)
    (pretty : String → String) : HandlerResult :=
  let url := gatewayUrl ++ "/ar-io/info"
  if !resp.ok then
    { requests := [.get url],
      text := "Error fetching gateway info: " ++ toString resp.status ++ " " ++
        resp.statusText }
  else
    { requests := [.get url], text := pretty resp.body }

/-- The hostname cleanup in `get-gateway-info-by-hostname`:
`hostname.replace(/^https?:\/\//, "")`. -/
def stripScheme (h : String) : String :=
  if h.startsWith "https://" then h.drop 8
  else if h.startsWith "http://" then h.drop 7
  else h

/-- The `get-gateway-info-by-hostname` tool (part_000 lines 181-228). -/
def getGatewayInfoByHostname (hostname : String) (resp : HttpResponse)
    (pretty : String → String) : HandlerResult :=
  let cleanHostname := stripScheme hostname
  let url := "https://" ++ cleanHostname ++ "/ar-io/info"
  if !resp.ok then
    { requests := [.get url],
      text := "Error fetching gateway info from " ++ cleanHostname ++ ": " ++
        toString resp.status ++ " " ++ resp.statusText }
  else
    { requests := [.get url], text := pretty resp.body }

/-- The `execute-graphql` tool (part_000 lines 231-291): one POST, non-2xx
reported as text, otherwise the upstream JSON pretty-printed. -/
def executeGraphql (gatewayUrl : String) (resp : HttpResponse)
    (pretty : String → String) : HandlerResult :=
  let url := gatewayUrl ++ "/graphql"
  if !resp.ok then
    { requests := [.post url],
      text := "Error executing GraphQL query: " ++ toString resp.status ++ " " ++
        resp.statusText }
  else
    { requests := [.post url], text := pretty resp.body }

/-- The `graphql://{query}` resource (part_000 lines 533-616).
`varsParseOk` models whether `JSON.parse` accepts the `variables` search
parameter (an external builtin). -/
def graphqlResource (gatewayUrl uriHref : String) (query : Option String)
    (variablesParam : Option String) (varsParseOk : Bool) (resp : HttpResponse)
    (pretty : String → String) : ResourceResult :=
  match query with
  | none => { requests := [], uri := uriHref, text := "Error: Missing GraphQL query" }
  | some q =>
    if q = "" then
      { requests := [], uri := uriHref, text := "Error: Missing GraphQL query" }
    else
      let hasVariables :=
        match variablesParam with
        | none => false
        | some s => s != ""
      if hasVariables && !varsParseOk then
        { requests := [], uri := uriHref, text := "Error: Invalid JSON in variables parameter" }
      else
        let url := gatewayUrl ++ "/graphql"
        if !resp.ok then
          { requests := [.post url], uri := uriHref,
            text := "Error executing GraphQL query: " ++ toString resp.status ++ " " ++
              resp.statusText }
        else
          { requests := [.post url], uri := uriHref, text := pretty resp.body }

/-- The `gateway://{hostname}` resource (part_000 lines 678-736). -/
def gatewayResource (uriHref : String) (hostname : Option String)
    (resp : HttpResponse) (pretty : String → String) : ResourceResult :=
  match hostname with
  | none => { requests := [], uri := uriHref, text := "Error: Missing hostname" }
  | some h =>
    if h = "" then
      { requests := [], uri := uriHref, text := "Error: Missing hostname" }
    else
      let cleanHostname := stripScheme h
      let url := "https://" ++ cleanHostname ++ "/ar-io/info"
      if !resp.ok then
        { requests := [.get url], uri := uriHref,
          text := "Error fetching gateway info from " ++ cleanHostname ++ ": " ++
            toString resp.status ++ " " ++ resp.statusText }
      else
        { requests := [.get url], uri := uriHref, text := pretty resp.body }

/-! ## list-gateways and the gateways:// resource (part_000 lines 393-440,
618-675) -/

/-- Outcome of the gateway listing operations: either a descriptive error
text, a zod validation rejection, or a delegated registry call carrying the
limit that was forwarded. -/
inductive GwOutcome where
  | rejected
  | invalid (msg : String)
  | forward (limit : Int)
deriving DecidableEq

/-- The `list-gateways` tool: `limit: z.number().positive().optional()` is
checked before the handler runs (non-positive numbers are rejected by the
input schema), and the handler forwards `limit || 100`.  JS numbers are
modelled as integers. -/
def listGatewaysTool (limit : Option Int) : GwOutcome :=
  match limit with
  | none => .forward 100
  | some n => if 0 < n then .forward n else .rejected

/-- The `gateways://{network}` resource.  The `network` template variable
defaults to "mainnet" when absent or empty (`|| "mainnet"`), invalid names
yield an error text; the `limit` search parameter goes through
`limitParam ? parseInt(limitParam, 10) : undefined` and
`(limit && !isNaN(limit) && limit > 0) ? limit : 100`, so absent, empty,
NaN, zero and negative values all silently become 100. -/
def gatewaysResource (network : Option String) (limitParam : Option String) : GwOutcome :=
  let net :=
    match network with
    | none => "mainnet"
    | some s => if s = "" then "mainnet" else s
  if !(["mainnet", "testnet"].contains net) then
    .invalid "Error: Invalid network. Must be one of: mainnet, testnet"
  else
    let parsed : Option Int :=
      match limitParam with
      | none => none
      | some s => if s = "" then none else jsParseInt s
    let validLimit :=
      match parsed with
      | some n => if 0 < n then n else 100
      | none => 100
    .forward validLimit

/-! ## get-arns-records and the arns:// resource (part_000 lines 442-493,
738-822) -/

/-- The sort fields declared by the `get-arns-records` zod enum and repeated
in the resource's type cast of the `sortBy` search parameter. -/
def arnsToolSortByValues : List String :=
  ["name", "type", "processId", "startTimestamp", "undernameLimit",
    "purchasePrice", "endTimestamp"]

/-- Whether the `get-arns-records` tool's input schema accepts the `sortBy`
argument (`z.enum([...]).optional()`); accepted requests are forwarded to
`ario.getArNSRecords`. -/
def getArnsRecordsToolAccepts (sortBy : Option String) : Bool :=
  match sortBy with
  | none => true
  | some s => arnsToolSortByValues.contains s

/-- The values the `arns://{network}` resource's runtime check actually
admits: `if (sortBy && !["height", "nameHeight",
"lastUpdateHeight"].includes(sortBy))` returns the error text. -/
def arnsResourceSortByValid : List String :=
  ["height", "nameHeight", "lastUpdateHeight"]

/-- Outcome of the arns resource's sortBy handling: error text or a
delegated registry call carrying the forwarded sort field. -/
inductive ArnsOutcome where
  | invalid (msg : String)
  | forward (sortBy : Option String)
deriving DecidableEq

/-- The `arns://{network}` resource's treatment of the `sortBy` search
parameter (part_000 lines 763-801): absent or empty values skip the check
(JS falsiness) and are forwarded; present values are validated against
`arnsResourceSortByValid`. -/
def arnsResourceSortByOutcome (sortBy : Option String) : ArnsOutcome :=
  match sortBy with
  | none => .forward none
  | some s =>
    if s = "" then .forward (some s)
    else if arnsResourceSortByValid.contains s then .forward (some s)
    else .invalid
      "Error: Invalid sortBy parameter. Must be one of: height, nameHeight, lastUpdateHeight"

/-! ## safeStringify (part_000 lines 37-44)

The custom serializer `safeStringify(obj, indent = 2)` calls
`JSON.stringify(obj, replacer, indent)` where the replacer converts `bigint`
values to their decimal string and returns every other value unchanged.
`JSON.stringify` itself is an external builtin; it is modelled below on a
JSON value tree, without the indentation whitespace (which carries no
information relevant to the claims), and with the builtin's `TypeError` on a
bigint that survives to serialization modelled as `none`. -/

mutual
inductive JValue where
  | jnull
  | jbool (b : Bool)
  | jnum (n : Int)
  | jstr (s : String)
  | jbig (n : Int)
  | jarr (a : JArr)
  | jobj (o : JObj)
inductive JArr where
  | nil
  | cons (v : JValue) (rest : JArr)
inductive JObj where
  | nil
  | cons (k : String) (v : JValue) (rest : JObj)
end

/-- The replacer function of `safeStringify`: `typeof value === "bigint" ?
value.toString() : value`. -/
def bigintReplacer : JValue → JValue
  | .jbig n => .jstr (toString n)
  | v => v

mutual
/-- `JSON.stringify` applies the replacer to every value it visits; since
the replacer only rewrites `bigint` leaves, the net effect is this structural
map. -/
def applyReplacer : JValue → JValue
  | .jarr a => .jarr (applyReplacerArr a)
  | .jobj o => .jobj (applyReplacerObj o)
  | v => bigintReplacer v
def applyReplacerArr : JArr → JArr
  | .nil => .nil
  | .cons v rest => .cons (applyReplacer v) (applyReplacerArr rest)
def applyReplacerObj : JObj → JObj
  | .nil => .nil
  | .cons k v rest => .cons k (applyReplacer v) (applyReplacerObj rest)
end

/-- JSON string escaping for one character (quote and backslash; control
characters do not occur in the values the claims use). -/
def jsonEscapeChar (c : Char) : String :=
  if c = '"' then "\\\"" else if c = '\\' then "\\\\" else String.singleton c

/-- A JSON string literal for `s`. -/
def jsonQuote (s : String) : String :=
  "\"" ++ String.join (s.toList.map jsonEscapeChar) ++ "\""

/-- Comma-separated join of rendered members. -/
def joinComma : List String → String
  | [] => ""
  | [p] => p
  | p :: ps => p ++ "," ++ joinComma ps

mutual
/-- Compact JSON rendering; `none` models the `TypeError` that
`JSON.stringify` raises on a bigint value. -/
def renderJson : JValue → Option String
  | .jnull => some "null"
  | .jbool b => some (if b then "true" else "false")
  | .jnum n => some (toString n)
  | .jstr s => some (jsonQuote s)
  | .jbig _ => none
  | .jarr a => (renderJsonArr a).map (fun ps => "[" ++ joinComma ps ++ "]")
  | .jobj o => (renderJsonObj o).map (fun ps => "\x7b" ++ joinComma ps ++ "\x7d")
def renderJsonArr : JArr → Option (List String)
  | .nil => some []
  | .cons v rest =>
    match renderJson v, renderJsonArr rest with
    | some s, some ps => some (s :: ps)
    | _, _ => none
def renderJsonObj : JObj → Option (List String)
  | .nil => some []
  | .cons k v rest =>
    match renderJson v, renderJsonObj rest with
    | some s, some ps => some ((jsonQuote k ++ ":" ++ s) :: ps)
    | _, _ => none
end

/-- The serializer of the Parquet handlers: `JSON.stringify(obj, replacer,
indent)`. -/
def safeStringify (v : JValue) : Option String :=
  renderJson (applyReplacer v)

/-- Membership of a key/value pair in an object literal. -/
def JObj.memField (k : String) (v : JValue) : JObj → Prop
  | .nil => False
  | .cons k1 v1 rest => (k = k1 ∧ v = v1) ∨ JObj.memField k v rest

/-! ## Helper lemmas -/

mutual
theorem renderSome : ∀ v : JValue, (renderJson (applyReplacer v)).isSome
  | .jnull => rfl
  | .jbool _ => rfl
  | .jnum _ => rfl
  | .jstr _ => rfl
  | .jbig _ => rfl
  | .jarr a => by
    have h := renderSomeArr a
    simp only [applyReplacer, renderJson]
    cases hq : renderJsonArr (applyReplacerArr a) with
    | none => rw [hq] at h; exact absurd h (by simp)
    | some ps => simp
  | .jobj o => by
    have h := renderSomeObj o
    simp only [applyReplacer, renderJson]
    cases hq : renderJsonObj (applyReplacerObj o) with
    | none => rw [hq] at h; exact absurd h (by simp)
    | some ps => simp
theorem renderSomeArr : ∀ a : JArr, (renderJsonArr (applyReplacerArr a)).isSome
  | .nil => rfl
  | .cons v rest => by
    have h1 := renderSome v
    have h2 := renderSomeArr rest
    simp only [applyReplacerArr, renderJsonArr]
    cases hq1 : renderJson (applyReplacer v) with
    | none => rw [hq1] at h1; exact absurd h1 (by simp)
    | some s =>
      cases hq2 : renderJsonArr (applyReplacerArr rest) with
      | none => rw [hq2] at h2; exact absurd h2 (by simp)
      | some ps => simp
theorem renderSomeObj : ∀ o : JObj, (renderJsonObj (applyReplacerObj o)).isSome
  | .nil => rfl
  | .cons k v rest => by
    have h1 := renderSome v
    have h2 := renderSomeObj rest
    simp only [applyReplacerObj, renderJsonObj]
    cases hq1 : renderJson (applyReplacer v) with
    | none => rw [hq1] at h1; exact absurd h1 (by simp)
    | some s =>
      cases hq2 : renderJsonObj (applyReplacerObj rest) with
      | none => rw [hq2] at h2; exact absurd h2 (by simp)
      | some ps => simp
end

theorem memField_applyReplacerObj (k : String) (n : Int) :
    ∀ o : JObj, JObj.memField k (JValue.jbig n) o →
      JObj.memField k (JValue.jstr (toString n)) (applyReplacerObj o)
  | .cons k1 v1 rest, h => by
    cases h with
    | inl h => exact Or.inl ⟨h.1, by rw [← h.2]; rfl⟩
    | inr h => exact Or.inr (memField_applyReplacerObj k n rest h)

theorem memField_renderObj (k : String) (v : JValue) :
    ∀ (o : JObj) (ps : List String), JObj.memField k v o → renderJsonObj o = some ps →
      ∃ sv, renderJson v = some sv ∧ (jsonQuote k ++ ":" ++ sv) ∈ ps
  | .cons k1 v1 rest, ps, hmem, hren => by
    simp only [renderJsonObj] at hren
    cases hq1 : renderJson v1 with
    | none => rw [hq1] at hren; simp at hren
    | some s1 =>
      cases hq2 : renderJsonObj rest with
      | none => rw [hq1, hq2] at hren; simp at hren
      | some ps1 =>
        rw [hq1, hq2] at hren
        simp only [Option.some.injEq] at hren
        cases hmem with
        | inl h =>
          refine ⟨s1, ?_, ?_⟩
          · rw [h.2]; exact hq1
          · rw [← hren, h.1]; exact List.mem_cons_self _ _
        | inr h =>
          obtain ⟨sv, hsv, hin⟩ := memField_renderObj k v rest ps1 h hq2
          exact ⟨sv, hsv, by rw [← hren]; exact List.mem_cons_of_mem _ hin⟩

theorem mem_joinComma (p : String) : ∀ ps : List String, p ∈ ps →
    ∃ pre post, joinComma ps = pre ++ (p ++ post)
  | [q], h => by
    rcases List.mem_singleton.mp h with rfl
    exact ⟨"", "", by simp [joinComma]⟩
  | q :: q1 :: qs, h => by
    rcases List.mem_cons.mp h with rfl | h
    · exact ⟨"", "," ++ joinComma (q1 :: qs), by
        show p ++ "," ++ joinComma (q1 :: qs) = "" ++ (p ++ ("," ++ joinComma (q1 :: qs)))
        simp [String.append_assoc]⟩
    · obtain ⟨pre, post, hpp⟩ := mem_joinComma p (q1 :: qs) h
      refine ⟨q ++ "," ++ pre, post, ?_⟩
      show q ++ "," ++ joinComma (q1 :: qs) = q ++ "," ++ pre ++ (p ++ post)
      rw [hpp]
      simp [String.append_assoc]

/-! ## Claim theorems -/

/-- C1 counterexample: the claim fails because the handler trims the query
before appending.  The input "  SELECT 1" contains no "limit " substring and
the limit is absent (default 100), yet the executed query is not the input
with " LIMIT 100" appended (the leading whitespace is gone). -/
theorem queryParquet_limit_append_counterexample :
    jsIncludes (jsToLower "  SELECT 1") "limit " = false ∧
    queryParquetExecuted "  SELECT 1" none ≠ "  SELECT 1" ++ " LIMIT 100" := by
  decide

/-- C1 (amended): for every query whose trimmed text does not contain
"limit " case-insensitively, the executed query equals the trimmed input with
" LIMIT n" appended, where n is the supplied positive limit or the default
100. -/
theorem queryParquet_appends_limit_to_trimmed (q : String) (n : Int)
    (h : jsIncludes (jsToLower (jsTrim q)) "limit " = false) (hn : 0 < n) :
    queryParquetExecuted q (some n) = jsTrim q ++ " LIMIT " ++ toString n ∧
    queryParquetExecuted q none = jsTrim q ++ " LIMIT " ++ toString (100 : Int) := by
  constructor
  · simp [queryParquetExecuted, queryWithLimit, h]
  · simp [queryParquetExecuted, queryWithLimit, h]

/-- C1 witness: the amended statement at a concrete query and limit. -/
theorem queryParquet_appends_limit_witness :
    queryParquetExecuted "SELECT * FROM tags" (some 5) = "SELECT * FROM tags LIMIT 5" :=
  ((queryParquet_appends_limit_to_trimmed "SELECT * FROM tags" 5 (by decide) (by decide)).1).trans
    (by decide)

/-- C2 counterexample: the claim fails because the handler trims the query.
The input " SELECT 1 LIMIT 2" contains "limit " case-insensitively, yet the
executed query differs from the input (leading whitespace removed). -/
theorem queryParquet_passthrough_counterexample :
    jsIncludes (jsToLower " SELECT 1 LIMIT 2") "limit " = true ∧
    queryParquetExecuted " SELECT 1 LIMIT 2" none ≠ " SELECT 1 LIMIT 2" := by
  decide

/-- C2 (amended): for every query whose trimmed text contains "limit "
case-insensitively, the executed query equals the trimmed input, unmodified
otherwise. -/
theorem queryParquet_passthrough_trimmed (q : String) (l : Option Int)
    (h : jsIncludes (jsToLower (jsTrim q)) "limit " = true) :
    queryParquetExecuted q l = jsTrim q := by
  simp [queryParquetExecuted, queryWithLimit, h]

/-- C2 witness: the amended statement at a concrete query. -/
theorem queryParquet_passthrough_witness :
    queryParquetExecuted "SELECT 1 LIMIT 2" none = "SELECT 1 LIMIT 2" :=
  (queryParquet_passthrough_trimmed "SELECT 1 LIMIT 2" none (by decide)).trans (by decide)

/-- C3: evaluation of the claim at the failing input.  When every DuckDB
operation succeeds the handler closes both the connection and the database,
but when `conn.all` throws (for example on a query naming a missing table)
the catch block returns without closing either: the connection was opened and
neither close ever runs, contradicting the claim that every exit path closes
the connection and instance. -/
theorem queryParquet_connection_leak_on_query_failure :
    (DbEvent.closeConn ∈ (queryParquetTrace (fun _ => false)).1 ∧
      DbEvent.closeDb ∈ (queryParquetTrace (fun _ => false)).1) ∧
    (DbEvent.connectDb ∈ (queryParquetTrace (fun e => e == DbEvent.runQuery)).1 ∧
      DbEvent.closeConn ∉ (queryParquetTrace (fun e => e == DbEvent.runQuery)).1 ∧
      DbEvent.closeDb ∉ (queryParquetTrace (fun e => e == DbEvent.runQuery)).1) := by
  decide

/-- C4: evaluation of the claim at the failing input.  The tool's zod enum
accepts the sort field "name" and rejects "height"; the resource's runtime
check does the exact opposite, rejecting "name" with an error text that
enumerates "height, nameHeight, lastUpdateHeight" and forwarding "height".
The two endpoints therefore do not accept the same sort-field set, although
the resource's own type cast lists the tool's seven values. -/
theorem arns_sortBy_tool_resource_divergence :
    getArnsRecordsToolAccepts (some "name") = true ∧
    arnsResourceSortByOutcome (some "name") =
      ArnsOutcome.invalid
        "Error: Invalid sortBy parameter. Must be one of: height, nameHeight, lastUpdateHeight" ∧
    getArnsRecordsToolAccepts (some "height") = false ∧
    arnsResourceSortByOutcome (some "height") = ArnsOutcome.forward (some "height") := by
  decide

/-- C8: a result object with a bigint field serializes that field as a JSON
string literal holding the integer's decimal representation, and the replacer
leaves every non-bigint value unchanged. -/
theorem safeStringify_bigint_spec (o : JObj) (k : String) (n : Int)
    (h : JObj.memField k (JValue.jbig n) o) :
    (∃ pre post, safeStringify (JValue.jobj o) =
        some (pre ++ (jsonQuote k ++ ":" ++ jsonQuote (toString n) ++ post))) ∧
    (∀ v : JValue, (∀ m : Int, v ≠ JValue.jbig m) → bigintReplacer v = v) := by
  constructor
  · have hms := renderSomeObj o
    cases hps : renderJsonObj (applyReplacerObj o) with
    | none => rw [hps] at hms; exact absurd hms (by simp)
    | some ps =>
      have hmem2 := memField_applyReplacerObj k n o h
      obtain ⟨sv, hsv, hin⟩ :=
        memField_renderObj k (JValue.jstr (toString n)) (applyReplacerObj o) ps hmem2 hps
      have hsv2 : sv = jsonQuote (toString n) := by
        have hr : renderJson (JValue.jstr (toString n)) = some (jsonQuote (toString n)) := rfl
        rw [hr] at hsv
        exact (Option.some.injEq _ _ ▸ hsv).symm
      obtain ⟨pre0, post0, hj⟩ := mem_joinComma _ ps hin
      refine ⟨"\x7b" ++ pre0, post0 ++ "\x7d", ?_⟩
      have hw : safeStringify (JValue.jobj o) = some ("\x7b" ++ joinComma ps ++ "\x7d") := by
        simp only [safeStringify, applyReplacer, renderJson, hps]
        rfl
      rw [hw, hj, hsv2]
      simp [String.append_assoc]
  · intro v hv
    cases v with
    | jbig m => exact absurd rfl (hv m)
    | jnull => rfl
    | jbool b => rfl
    | jnum m => rfl
    | jstr s => rfl
    | jarr a => rfl
    | jobj oo => rfl

/-- C8 witness: a result row carrying the 64-bit value 5000000000 serializes
it as a quoted decimal string. -/
theorem safeStringify_bigint_witness :
    ∃ pre post,
      safeStringify (JValue.jobj (JObj.cons "total" (JValue.jbig 5000000000) JObj.nil)) =
        some (pre ++ (jsonQuote "total" ++ ":" ++ jsonQuote (toString (5000000000 : Int)) ++ post)) :=
  (safeStringify_bigint_spec (JObj.cons "total" (JValue.jbig 5000000000) JObj.nil)
    "total" 5000000000 (Or.inl ⟨rfl, rfl⟩)).1

/-- C5: in the size-checking variant, a HEAD response whose Content-Length
parses to an integer above 8192 makes both the tool and the transaction
resource return the oversize error text (mentioning the byte count and the
8KB limit) and the follow-up GET is never issued. -/
theorem fetchRaw_oversize_rejects_without_get (gw uriHref txId : String) (net : Network)
    (b64 : String → String) (n : Int)
    (hok : net.headResponse.ok = true)
    (hcl : jsParseInt ((getHeader net.headResponse.headers "Content-Length").getD "0") = some n)
    (hn : 8192 < n) (htx : txId ≠ "") :
    fetchRawTransaction gw txId net b64 =
      { requests := [Request.head (gw ++ "/raw/" ++ txId)],
        text := "Error: Transaction data is too large (" ++ toString n ++
          " bytes, limit is 8KB)" } ∧
    Request.get (gw ++ "/raw/" ++ txId) ∉ (fetchRawTransaction gw txId net b64).requests ∧
    transactionResource gw uriHref (some txId) net b64 =
      { requests := [Request.head (gw ++ "/raw/" ++ txId)], uri := uriHref,
        text := "Error: Transaction data is too large (" ++ toString n ++
          " bytes, limit is 8KB)" } := by
  have hmain : fetchRawTransaction gw txId net b64 =
      { requests := [Request.head (gw ++ "/raw/" ++ txId)],
        text := "Error: Transaction data is too large (" ++ toString n ++
          " bytes, limit is 8KB)" } := by
    simp [fetchRawTransaction, hok, hcl, oversize8k, hn, jsNumToString]
  refine ⟨hmain, ?_, ?_⟩
  · rw [hmain]; simp
  · simp [transactionResource, htx, hmain]

/-- C5 witness: a 10000-byte Content-Length on an OK HEAD response yields the
oversize error and only the HEAD request. -/
theorem fetchRaw_oversize_witness :
    fetchRawTransaction "https://ardrive.net" "a123456789012345678901234567890123456789012"
      (Network.mk (HttpResponse.mk 200 "OK" [("Content-Length", "10000")] "")
        (HttpResponse.mk 200 "OK" [] "")) (fun s => s) =
      { requests := [Request.head ("https://ardrive.net" ++ "/raw/" ++
          "a123456789012345678901234567890123456789012")],
        text := "Error: Transaction data is too large (" ++ toString (10000 : Int) ++
          " bytes, limit is 8KB)" } :=
  (fetchRaw_oversize_rejects_without_get "https://ardrive.net" "transaction://x"
    "a123456789012345678901234567890123456789012"
    (Network.mk (HttpResponse.mk 200 "OK" [("Content-Length", "10000")] "")
      (HttpResponse.mk 200 "OK" [] "")) (fun s => s) 10000
    (by decide) (by decide) (by decide) (by decide)).1

/-- C6: an identifier rejected by the 43-character base64url regex makes the
`fetch-raw-transaction` tool return the validation-error text and issue no
request at all. -/
theorem fetchRaw_invalid_txid_no_request (gw txId : String) (net : Network)
    (b64 : String → String) (h : txIdValid txId = false) :
    fetchRawTransactionTool gw txId net b64 =
      ToolOutcome.invalid "Invalid transaction ID format" ∧
    (fetchRawTransactionTool gw txId net b64).requestsMade = [] := by
  refine ⟨?_, ?_⟩ <;> simp [fetchRawTransactionTool, h, ToolOutcome.requestsMade]

/-- C6 witness: the short identifier "not-valid" is rejected without any
network traffic. -/
theorem fetchRaw_invalid_txid_witness :
    (fetchRawTransactionTool "https://ardrive.net" "not-valid"
      (Network.mk (HttpResponse.mk 200 "OK" [] "") (HttpResponse.mk 200 "OK" [] ""))
      (fun s => s)).requestsMade = [] :=
  (fetchRaw_invalid_txid_no_request "https://ardrive.net" "not-valid"
    (Network.mk (HttpResponse.mk 200 "OK" [] "") (HttpResponse.mk 200 "OK" [] ""))
    (fun s => s) (by decide)).2

/-- C7: every handler that receives an upstream HTTP response reports a
non-2xx status as a normal text payload containing the numeric status code
followed by the status text; the embedding is a total function, so no
exception crosses the protocol boundary. -/
theorem handlers_nonOk_status_in_text
    (gw host uriHref txId q : String) (net : Network) (b64 pretty : String → String)
    (r : HttpResponse) (vp : Option String)
    (hr : r.ok = false) (hq : q ≠ "") (hh : host ≠ "") (htx : txId ≠ "") :
    (∃ pre, (getGatewayInfo gw r pretty).text =
      pre ++ toString r.status ++ " " ++ r.statusText) ∧
    (∃ pre, (getGatewayInfoByHostname host r pretty).text =
      pre ++ toString r.status ++ " " ++ r.statusText) ∧
    (∃ pre, (executeGraphql gw r pretty).text =
      pre ++ toString r.status ++ " " ++ r.statusText) ∧
    (∃ pre, (gatewayResource uriHref (some host) r pretty).text =
      pre ++ toString r.status ++ " " ++ r.statusText) ∧
    (∃ pre, (graphqlResource gw uriHref (some q) vp true r pretty).text =
      pre ++ toString r.status ++ " " ++ r.statusText) ∧
    (net.headResponse.ok = false →
      (∃ pre, (fetchRawTransaction gw txId net b64).text =
        pre ++ toString net.headResponse.status ++ " " ++ net.headResponse.statusText) ∧
      (∃ pre, (transactionResource gw uriHref (some txId) net b64).text =
        pre ++ toString net.headResponse.status ++ " " ++ net.headResponse.statusText)) ∧
    (net.headResponse.ok = true →
      oversize8k (jsParseInt
        ((getHeader net.headResponse.headers "Content-Length").getD "0")) = false →
      net.getResponse.ok = false →
      (∃ pre, (fetchRawTransaction gw txId net b64).text =
        pre ++ toString net.getResponse.status ++ " " ++ net.getResponse.statusText) ∧
      (∃ pre, (transactionResource gw uriHref (some txId) net b64).text =
        pre ++ toString net.getResponse.status ++ " " ++ net.getResponse.statusText)) := by
  refine ⟨?_, ?_, ?_, ?_, ?_, ?_, ?_⟩
  · simp only [getGatewayInfo, hr, Bool.not_false, if_true]
    exact ⟨"Error fetching gateway info: ", rfl⟩
  · simp only [getGatewayInfoByHostname, hr, Bool.not_false, if_true]
    exact ⟨"Error fetching gateway info from " ++ stripScheme host ++ ": ", rfl⟩
  · simp only [executeGraphql, hr, Bool.not_false, if_true]
    exact ⟨"Error executing GraphQL query: ", rfl⟩
  · simp [gatewayResource, hh, hr]
    exact ⟨"Error fetching gateway info from " ++ stripScheme host ++ ": ", rfl⟩
  · simp [graphqlResource, hq, hr]
    exact ⟨"Error executing GraphQL query: ", rfl⟩
  · intro hhead
    have hf : ∃ pre, (fetchRawTransaction gw txId net b64).text =
        pre ++ toString net.headResponse.status ++ " " ++ net.headResponse.statusText := by
      simp only [fetchRawTransaction, hhead, Bool.not_false, if_true]
      exact ⟨"Error fetching transaction: ", rfl⟩
    obtain ⟨pre, hp⟩ := hf
    exact ⟨⟨pre, hp⟩, ⟨pre, by simp [transactionResource, htx, hp]⟩⟩
  · intro hok hov hget
    have hf : ∃ pre, (fetchRawTransaction gw txId net b64).text =
        pre ++ toString net.getResponse.status ++ " " ++ net.getResponse.statusText := by
      simp only [fetchRawTransaction, hok, hov, hget, Bool.not_true, Bool.not_false,
        if_true, if_false, Bool.false_eq_true]
      exact ⟨"Error fetching transaction: ", rfl⟩
    obtain ⟨pre, hp⟩ := hf
    exact ⟨⟨pre, hp⟩, ⟨pre, by simp [transactionResource, htx, hp]⟩⟩

/-- C7 witness: a 404 "Not Found" upstream response to `get-gateway-info`
yields a text containing "404 Not Found". -/
theorem handlers_nonOk_status_witness :
    ∃ pre, (getGatewayInfo "https://ardrive.net"
        (HttpResponse.mk 404 "Not Found" [] "") (fun s => s)).text =
      pre ++ toString (HttpResponse.mk 404 "Not Found" [] "").status ++ " " ++
        (HttpResponse.mk 404 "Not Found" [] "").statusText :=
  (handlers_nonOk_status_in_text "https://ardrive.net" "ardrive.net" "gateway://x" "tx" "q"
    (Network.mk (HttpResponse.mk 404 "Not Found" [] "") (HttpResponse.mk 200 "OK" [] ""))
    (fun s => s) (fun s => s) (HttpResponse.mk 404 "Not Found" [] "") none
    (by decide) (by decide) (by decide) (by decide)).1

/-- C9: when the OK HEAD response has no Content-Length header the declared
length parses as 0, and when the header does not parse the result is NaN; in
both cases the oversize branch is not taken and the follow-up GET is issued,
so the 8KB cap is not enforced. -/
theorem fetchRaw_unknown_length_fetches (gw txId : String) (net : Network)
    (b64 : String → String)
    (hok : net.headResponse.ok = true)
    (hcl : getHeader net.headResponse.headers "Content-Length" = none ∨
      jsParseInt ((getHeader net.headResponse.headers "Content-Length").getD "0") = none) :
    (getHeader net.headResponse.headers "Content-Length" = none →
      jsParseInt ((getHeader net.headResponse.headers "Content-Length").getD "0") = some 0) ∧
    oversize8k (jsParseInt
      ((getHeader net.headResponse.headers "Content-Length").getD "0")) = false ∧
    Request.get (gw ++ "/raw/" ++ txId) ∈ (fetchRawTransaction gw txId net b64).requests := by
  have hov : oversize8k (jsParseInt
      ((getHeader net.headResponse.headers "Content-Length").getD "0")) = false := by
    rcases hcl with h | h
    · rw [h]; decide
    · rw [h]; rfl
  refine ⟨?_, hov, ?_⟩
  · intro h; rw [h]; decide
  · simp [fetchRawTransaction, hok, hov]
    split <;> simp

/-- C9 witness: a non-numeric Content-Length on an OK HEAD response still
leads to the GET request. -/
theorem fetchRaw_unknown_length_witness :
    Request.get ("https://ardrive.net" ++ "/raw/" ++ "tx") ∈
      (fetchRawTransaction "https://ardrive.net" "tx"
        (Network.mk (HttpResponse.mk 200 "OK" [("Content-Length", "abc")] "")
          (HttpResponse.mk 200 "OK" [] "hello")) (fun s => s)).requests :=
  (fetchRaw_unknown_length_fetches "https://ardrive.net" "tx"
    (Network.mk (HttpResponse.mk 200 "OK" [("Content-Length", "abc")] "")
      (HttpResponse.mk 200 "OK" [] "hello")) (fun s => s)
    (by decide) (Or.inr (by decide))).2.2

/-- C10: the gateways resource silently replaces an absent, non-numeric, zero
or negative limit parameter by the default 100 (never producing an error),
the `list-gateways` tool rejects non-positive limits at input validation, and
both forward every positive parsed limit unchanged. -/
theorem gateways_limit_handling :
    (∀ p : Option String,
      (p = none ∨ ∃ s, p = some s ∧
        (jsParseInt s = none ∨ ∃ n, jsParseInt s = some n ∧ n ≤ 0)) →
      gatewaysResource none p = GwOutcome.forward 100) ∧
    (∀ n : Int, n ≤ 0 → listGatewaysTool (some n) = GwOutcome.rejected) ∧
    (∀ (s : String) (n : Int), jsParseInt s = some n → 0 < n →
      gatewaysResource none (some s) = GwOutcome.forward n) ∧
    (∀ n : Int, 0 < n → listGatewaysTool (some n) = GwOutcome.forward n) := by
  refine ⟨?_, ?_, ?_, ?_⟩
  · rintro p (rfl | ⟨s, rfl, hp⟩)
    · rfl
    · by_cases hs : s = ""
      · subst hs; rfl
      · rcases hp with h | ⟨n, hn, hle⟩
        · simp [gatewaysResource, hs, h]
        · have hnp : ¬ (0 < n) := by omega
          simp [gatewaysResource, hs, hn, hnp]
  · intro n h
    have hnp : ¬ (0 < n) := by omega
    simp [listGatewaysTool, hnp]
  · intro s n hp hpos
    have hs : s ≠ "" := by
      intro hs; subst hs
      simp [jsParseInt] at hp
    simp [gatewaysResource, hs, hp, hpos]
  · intro n h
    simp [listGatewaysTool, h]

/-- C10 witness: "abc" and 0 fall back or are rejected, while 42 and 5 are
forwarded unchanged. -/
theorem gateways_limit_handling_witness :
    gatewaysResource none (some "abc") = GwOutcome.forward 100 ∧
    listGatewaysTool (some 0) = GwOutcome.rejected ∧
    gatewaysResource none (some "42") = GwOutcome.forward 42 ∧
    listGatewaysTool (some 5) = GwOutcome.forward 5 :=
  ⟨gateways_limit_handling.1 (some "abc") (Or.inr ⟨"abc", rfl, Or.inl (by decide)⟩),
   gateways_limit_handling.2.1 0 (by decide),
   gateways_limit_handling.2.2.1 "42" 42 (by decide) (by decide),
   gateways_limit_handling.2.2.2 5 (by decide)⟩
